import Mathlib

/-!
Shallow embedding of the pyslack client (`pyslack/__init__.py`) in Lean 4.

Python dicts are modelled as association lists with latest-insertion-wins
lookup (`dictGet` returns the first matching key; an insertion is a cons,
which shadows any older binding exactly as a dict assignment overwrites it).
A dict is empty (falsy in Python) iff the association list is empty, since
the only mutations the source performs are key assignments.

Time (from `datetime.datetime.utcnow()`) is modelled as an integer number
of seconds passed in explicitly; the network is modelled by passing in the
transport's response (`HttpResponse`) and recording the calls the code
would issue (`PostedCall` lists / listing-call counters).
-/

namespace Pyslack

/-- Lookup in a Python-dict model: first match wins (newest insertion is at
the head). -/
def dictGet {α : Type} (m : List (String × α)) (k : String) : Option α :=
  match m with
  | [] => none
  | (k', v) :: rest => if k = k' then some v else dictGet rest k

/-- A channel record as returned by `channels.list` (the fields the client
reads: `channel['id']` and `channel['name']`). -/
structure ChannelRec where
  id : String
  name : String
deriving DecidableEq, Repr

/-- A member record as returned by `users.list` (the fields the client
reads: `user_['id']` and `user_['name']`). -/
structure Member where
  id : String
  name : String
deriving DecidableEq, Repr

/-- A value stored in the user caches: either a record from the listing, or
the synthetic Slackbot record `{status: None, profile: {}, name: 'Slackbot'}`
injected by `update_user_lists_dicts` (it carries no `id` key). -/
inductive UserRec where
  | fromListing (m : Member)
  | syntheticSlackbot
deriving DecidableEq, Repr

/-- The mutable fields of a `SlackClient` instance (`__init__`). -/
structure ClientState where
  token : String
  channels : List (String × ChannelRec)
  ul_by_id : List (String × UserRec)
  ul_by_name : List (String × UserRec)
  blocked_until : Option Int
  channel_name_id_map : List (String × String)
deriving DecidableEq, Repr

/-- `SlackClient(token)`: caches start empty, no deadline set. -/
def initClient (token : String) : ClientState :=
  ⟨token, [], [], [], none, []⟩

def BASE_URL : String := "https://slack.com/api"

/-- A parsed JSON body: the success flag `ok`, the error-code string
`error`, and opaque extra fields passed through verbatim. -/
structure ApiResult where
  ok : Bool
  error : String
  payload : List (String × String)
deriving DecidableEq, Repr

/-- The transport's response to one HTTP POST, as the client interprets it:
either status 429 with an optional `retry-after` header, or any other
status whose body parses to a JSON object. -/
inductive HttpResponse where
  | tooMany (retryAfterHeader : Option String)
  | jsonResp (result : ApiResult)
deriving DecidableEq, Repr

/-- `s.startswith(c)` for a one-character prefix: the first character is `c`. -/
def startsWithChar (s : String) (c : Char) : Bool :=
  match s.toList with
  | [] => false
  | c' :: _ => c' = c

/-- Python `s[1:]`. -/
def pyTail (s : String) : String := String.mk (s.toList.drop 1)

/-- Accumulate decimal digits; any non-digit character is a parse failure. -/
def digitsVal (acc : Nat) : List Char → Option Nat
  | [] => some acc
  | c :: cs => if c.isDigit then digitsVal (10 * acc + (c.toNat - 48)) cs else none

/-- Python `int(s)` on a decimal string: an optional sign followed by at
least one digit; anything else raises `ValueError`, modelled as `none`. -/
def pyInt (s : String) : Option Int :=
  match s.toList with
  | [] => none
  | '-' :: rest =>
    if rest.isEmpty then none else (digitsVal 0 rest).map (fun n => -(n : Int))
  | l => (digitsVal 0 l).map (fun n => (n : Int))

/-- Line 50: `int(response.headers.get('retry-after', '1'))` — the absent
header defaults to the string `"1"` before parsing. -/
def retryAfterOf (retryAfterHeader : Option String) : Option Int :=
  pyInt (retryAfterHeader.getD "1")

/-- One HTTP POST as issued by `requests.post(url, data=params, verify=...)`. -/
structure PostedCall where
  url : String
  form : List (String × String)
  verify : Bool
deriving DecidableEq, Repr

/-- The ways `_make_request` can terminate. `blockedErr` and `rateLimitErr`
are the two `SlackError("Too many requests ...")` raises, `valueErr` is the
`ValueError` escaping from `int(...)`, `apiErr` is `SlackError(result['error'])`,
and `success` returns the parsed object. -/
inductive MkOutcome where
  | blockedErr (deadline : Int)
  | rateLimitErr (retryAfter : Int)
  | valueErr
  | apiErr (code : String)
  | success (result : ApiResult)
deriving DecidableEq, Repr

/-- The observable effect of one `_make_request` call: how it terminated,
the instance state afterwards, the caller's `params` dict afterwards (the
code mutates it in place), and the HTTP POSTs actually issued. -/
structure MkResult where
  outcome : MkOutcome
  state : ClientState
  paramsAfter : List (String × String)
  posted : List PostedCall
deriving DecidableEq, Repr

/-- Lines 39-40: the gate condition
`self.blocked_until is not None and utcnow() < self.blocked_until`. -/
def rateCheckBlocked (st : ClientState) (now : Int) : Bool :=
  match st.blocked_until with
  | some d => now < d
  | none => false

/-- Lines 44-59 of `_make_request`, after the rate-limit gate has passed:
set `params['token']`, POST, then interpret the response. -/
def makeRequestUnblocked (st : ClientState) (now : Int) (method : String)
    (params : List (String × String)) (disableCertVerification : Bool)
    (resp : HttpResponse) : MkResult :=
  let params' := ("token", st.token) :: params
  let call : PostedCall :=
    ⟨BASE_URL ++ "/" ++ method, params', disableCertVerification⟩
  match resp with
  | .tooMany hdr =>
    match retryAfterOf hdr with
    | some ra =>
      ⟨.rateLimitErr ra, { st with blocked_until := some (now + ra) }, params', [call]⟩
    | none => ⟨.valueErr, st, params', [call]⟩
  | .jsonResp r =>
    if r.ok then ⟨.success r, st, params', [call]⟩
    else ⟨.apiErr r.error, st, params', [call]⟩

/-- `_make_request(method, params, disable_cert_verification=False)` with an
explicit clock and transport response. When the gate is active the error is
raised before the network is touched and before `params` is mutated. -/
def makeRequest (st : ClientState) (now : Int) (method : String)
    (params : List (String × String)) (disableCertVerification : Bool)
    (resp : HttpResponse) : MkResult :=
  match st.blocked_until with
  | some d =>
    if now < d then ⟨.blockedErr d, st, params, []⟩
    else makeRequestUnblocked st now method params disableCertVerification resp
  | none => makeRequestUnblocked st now method params disableCertVerification resp

/-- `update_channel_lists_dict`: iterate the listing and assign
`self.channels[channel_['name']] = channel_` for each record. The dict is
not cleared first. -/
def update_channel_lists_dict (st : ClientState) (listing : List ChannelRec) :
    ClientState :=
  { st with channels := listing.foldl (fun m c => (c.name, c) :: m) st.channels }

/-- `update_user_lists_dicts`: iterate the members, assigning into
`ul_by_id` (keyed by id) and `ul_by_name` (keyed by name), then inject the
synthetic Slackbot record under `ul_by_id['USLACKBOT']` only. Neither dict
is cleared first. -/
def update_user_lists_dicts (st : ClientState) (members : List Member) :
    ClientState :=
  { st with
    ul_by_id := ("USLACKBOT", UserRec.syntheticSlackbot) ::
      members.foldl (fun m u => (u.id, UserRec.fromListing u) :: m) st.ul_by_id,
    ul_by_name :=
      members.foldl (fun m u => (u.name, UserRec.fromListing u) :: m) st.ul_by_name }

/-- `setup_cache(force_refresh)`: refresh the user dicts if forced or
`ul_by_id` is falsy, then the channel dict if forced or `channels` is
falsy. Returns the new state and the number of listing requests issued
(the network responses are passed in as `members` / `chanListing`). -/
def setup_cache (st : ClientState) (forceRefresh : Bool) (members : List Member)
    (chanListing : List ChannelRec) : ClientState × Nat :=
  let (st1, c1) :=
    if forceRefresh || st.ul_by_id.isEmpty then
      (update_user_lists_dicts st members, 1)
    else (st, 0)
  let (st2, c2) :=
    if forceRefresh || st1.channels.isEmpty then
      (update_channel_lists_dict st1 chanListing, 1)
    else (st1, 0)
  (st2, c1 + c2)

/-- The dict comprehension of `channel_name_to_id`, lines 78-79:
`{channel['name']: channel['id'] for channel in channels}` (wholesale
replacement; later records overwrite earlier ones on duplicate names). -/
def buildNameIdMap (listing : List ChannelRec) : List (String × String) :=
  listing.foldl (fun m c => (c.name, c.id) :: m) []

/-- Lines 80-81: `channel_name.startswith('#') and channel_name[1:] or
channel_name`. Python `and`/`or` short-circuit on truthiness, so the bare
string `"#"` (whose tail is the falsy `""`) falls through unchanged. -/
def stripChannelName (s : String) : String :=
  if startsWithChar s '#' then (if pyTail s = "" then s else pyTail s) else s

/-- The result of `channel_name_to_id`: the returned value (`.get` yields
`None` on a miss), the state afterwards, and how many `channels.list`
requests were issued. -/
structure ResolveResult where
  result : Option String
  state : ClientState
  listingCalls : Nat
deriving DecidableEq, Repr

/-- `channel_name_to_id(channel_name, force_lookup=False)`: rebuild the
name→id map from a fresh `channels_list()` call iff forced or the map is
falsy; then strip the sigil and `.get` the name (no retry, no error). -/
def channel_name_to_id (st : ClientState) (listing : List ChannelRec)
    (channelName : String) (forceLookup : Bool) : ResolveResult :=
  let r :=
    if forceLookup || st.channel_name_id_map.isEmpty then
      ({ st with channel_name_id_map := buildNameIdMap listing }, 1)
    else (st, 0)
  ⟨dictGet r.1.channel_name_id_map (stripChannelName channelName), r.1, r.2⟩

/-- The channel-argument handling of `chat_update_message` (lines 359-363):
only an input that `startswith('#')` is resolved; anything else is put in
the params unchanged. -/
def chat_update_message_channel (st : ClientState) (listing : List ChannelRec)
    (channel : String) : ResolveResult :=
  if startsWithChar channel '#' then channel_name_to_id st listing channel false
  else ⟨some channel, st, 0⟩

/-- The prefix of `channel_history` relevant to count validation (lines
138-142): `setup_cache()` first, then the range check on `count`, which
raises `SlackError("count parameter out of range (must be 1-1000)")` when
`count < 1 or count > 1000`. `countOk = false` models that raise;
`listingCalls` counts the listing requests issued before it. -/
structure HistoryPre where
  countOk : Bool
  state : ClientState
  listingCalls : Nat
deriving DecidableEq, Repr

/-- See `HistoryPre`. -/
def channel_history_pre (st : ClientState) (members : List Member)
    (chanListing : List ChannelRec) (count : Int) : HistoryPre :=
  let r := setup_cache st false members chanListing
  if count < 1 ∨ count > 1000 then ⟨false, r.1, r.2⟩
  else ⟨true, r.1, r.2⟩

/-- `self.ul_by_name[user]` as performed by `channels_invite` and
`stars_list`; `none` models the `KeyError` a missing name raises. -/
def resolveUserByName (st : ClientState) (user : String) : Option UserRec :=
  dictGet st.ul_by_name user

/-- A freshly constructed client. -/
def stEmptyEx : ClientState := initClient "xoxb-secret"

def memberAlice : Member := ⟨"U1", "alice"⟩

def chanGeneral : ChannelRec := ⟨"C1", "general"⟩

def chanAlpha : ChannelRec := ⟨"CA", "alpha"⟩

def chanBeta : ChannelRec := ⟨"CB", "beta"⟩

/-- A client whose caches were populated from a listing holding the channel
`general` and the user `alice`. -/
def stPopEx : ClientState :=
  { stEmptyEx with
    channels := [("general", chanGeneral)],
    ul_by_id := [("U1", UserRec.fromListing memberAlice)],
    ul_by_name := [("alice", UserRec.fromListing memberAlice)],
    channel_name_id_map := [("general", "C1")] }

theorem dictGet_foldl_eq_none {α β : Type} (f : β → String × α) (l : List β)
    (m0 : List (String × α)) (k : String) :
    dictGet (l.foldl (fun m b => f b :: m) m0) k = none ↔
      dictGet m0 k = none ∧ ∀ b ∈ l, k ≠ (f b).1 := by
  induction l generalizing m0 with
  | nil => simp [dictGet]
  | cons b bs ih =>
    rw [List.foldl_cons, ih]
    simp only [dictGet, List.mem_cons]
    constructor
    · rintro ⟨h1, h2⟩
      by_cases hk : k = (f b).1
      · rw [if_pos hk] at h1; exact Option.noConfusion h1
      · rw [if_neg hk] at h1
        exact ⟨h1, fun b' hb' => hb'.elim (fun he => by rw [he]; exact hk) (h2 b')⟩
    · rintro ⟨h0, hall⟩
      have hkb : k ≠ (f b).1 := hall b (Or.inl rfl)
      rw [if_neg hkb]
      exact ⟨h0, fun b' hb' => hall b' (Or.inr hb')⟩

theorem makeRequestUnblocked_posted (st : ClientState) (now : Int) (method : String)
    (params : List (String × String)) (dcv : Bool) (resp : HttpResponse) :
    (makeRequestUnblocked st now method params dcv resp).posted =
      [⟨BASE_URL ++ "/" ++ method, ("token", st.token) :: params, dcv⟩] := by
  unfold makeRequestUnblocked
  cases resp with
  | tooMany hdr => cases h : retryAfterOf hdr <;> simp [h]
  | jsonResp r => by_cases h : r.ok <;> simp [h]

theorem makeRequestUnblocked_paramsAfter (st : ClientState) (now : Int) (method : String)
    (params : List (String × String)) (dcv : Bool) (resp : HttpResponse) :
    (makeRequestUnblocked st now method params dcv resp).paramsAfter =
      ("token", st.token) :: params := by
  unfold makeRequestUnblocked
  cases resp with
  | tooMany hdr => cases h : retryAfterOf hdr <;> simp [h]
  | jsonResp r => by_cases h : r.ok <;> simp [h]

theorem makeRequestUnblocked_token (st : ClientState) (now : Int) (method : String)
    (params : List (String × String)) (dcv : Bool) (resp : HttpResponse) :
    (makeRequestUnblocked st now method params dcv resp).state.token = st.token := by
  unfold makeRequestUnblocked
  cases resp with
  | tooMany hdr => cases h : retryAfterOf hdr <;> simp [h]
  | jsonResp r => by_cases h : r.ok <;> simp [h]

theorem makeRequest_eq_unblocked (st : ClientState) (now : Int) (method : String)
    (params : List (String × String)) (dcv : Bool) (resp : HttpResponse)
    (hnb : rateCheckBlocked st now = false) :
    makeRequest st now method params dcv resp =
      makeRequestUnblocked st now method params dcv resp := by
  unfold rateCheckBlocked at hnb
  unfold makeRequest
  cases hbu : st.blocked_until with
  | none => rfl
  | some d =>
    rw [hbu] at hnb
    simp only [decide_eq_false_iff_not] at hnb
    simp [hnb]

theorem makeRequest_blocked (st : ClientState) (now : Int) (method : String)
    (params : List (String × String)) (dcv : Bool) (resp : HttpResponse) (d : Int)
    (hbu : st.blocked_until = some d) (hlt : now < d) :
    makeRequest st now method params dcv resp = ⟨.blockedErr d, st, params, []⟩ := by
  unfold makeRequest
  rw [hbu]
  simp [hlt]

/-- Claim C1. The code passes the toggle straight through as the `verify`
keyword of `requests.post` (line 46: `verify=disable_cert_verification`),
so a call that omits the toggle (default `False`) issues its POST with
`verify=False`, i.e. with certificate verification DISABLED, and a call
that asks to disable verification issues its POST with `verify=True`. This
is the behaviour at the failing input; it contradicts both the claim and
the docstring of `_make_request`. -/
theorem c1_cert_verification_inverted :
    ((makeRequest stEmptyEx 0 "auth.test" [] false
        (.jsonResp ⟨true, "", []⟩)).posted.map PostedCall.verify = [false]) ∧
    ((makeRequest stEmptyEx 0 "auth.test" [] true
        (.jsonResp ⟨true, "", []⟩)).posted.map PostedCall.verify = [true]) := by
  decide

/-- Claim C7. For a non-429 response whose parsed body has `ok = false`,
`_make_request` raises `SlackError(result[error])`, carrying exactly the
platform error-code string; when `ok = true` the parsed object itself is
returned. -/
theorem c7_api_error_propagation (st : ClientState) (now : Int) (method : String)
    (params : List (String × String)) (dcv : Bool) (r : ApiResult)
    (hnb : rateCheckBlocked st now = false) :
    (r.ok = false →
      (makeRequest st now method params dcv (.jsonResp r)).outcome = .apiErr r.error) ∧
    (r.ok = true →
      (makeRequest st now method params dcv (.jsonResp r)).outcome = .success r) := by
  rw [makeRequest_eq_unblocked st now method params dcv (.jsonResp r) hnb]
  unfold makeRequestUnblocked
  constructor <;> intro h <;> simp [h]

/-- Witness for C7 at a concrete failing body. -/
theorem c7_api_error_propagation_witness :
    rateCheckBlocked stEmptyEx 0 = false ∧
    (((ApiResult.mk false "channel_not_found" []).ok = false →
      (makeRequest stEmptyEx 0 "chat.postMessage" [] false
        (.jsonResp ⟨false, "channel_not_found", []⟩)).outcome =
          .apiErr (ApiResult.mk false "channel_not_found" []).error) ∧
    ((ApiResult.mk false "channel_not_found" []).ok = true →
      (makeRequest stEmptyEx 0 "chat.postMessage" [] false
        (.jsonResp ⟨false, "channel_not_found", []⟩)).outcome =
          .success ⟨false, "channel_not_found", []⟩)) :=
  ⟨by decide, c7_api_error_propagation stEmptyEx 0 "chat.postMessage" [] false
    ⟨false, "channel_not_found", []⟩ (by decide)⟩

/-- Claim C8, as stated, is false: a present but malformed `retry-after`
header is fed to `int(...)`, which raises `ValueError` instead of
defaulting to 1; the request errors out without setting any deadline. -/
theorem c8_counterexample :
    retryAfterOf (some "abc") = none ∧
    (makeRequest stEmptyEx 0 "chat.postMessage" [] false
      (.tooMany (some "abc"))).outcome = .valueErr ∧
    (makeRequest stEmptyEx 0 "chat.postMessage" [] false
      (.tooMany (some "abc"))).state.blocked_until = none := by
  decide

/-- Claim C8 (amended). Extraction defaults to 1 second only when the
header is absent (the default string "1" is parsed); a present well-formed
header yields its integer value; a present malformed header makes the
parse fail (ValueError), it is not defaulted. -/
theorem c8_retry_after_extraction (s : String) (n : Int) (hs : pyInt s = some n) :
    retryAfterOf none = some 1 ∧
    retryAfterOf (some s) = some n ∧
    (∀ t, pyInt t = none → retryAfterOf (some t) = none) := by
  refine ⟨by decide, ?_, ?_⟩
  · simp [retryAfterOf, hs]
  · intro t ht
    simp [retryAfterOf, ht]

/-- Witness for C8 (amended) at a concrete well-formed header value. -/
theorem c8_retry_after_extraction_witness :
    pyInt "5" = some 5 ∧
    (retryAfterOf none = some 1 ∧
     retryAfterOf (some "5") = some 5 ∧
     (∀ t, pyInt t = none → retryAfterOf (some t) = none)) :=
  ⟨by decide, c8_retry_after_extraction "5" 5 (by decide)⟩

/-- Claim C9. Once the gate passes, `_make_request` executes
`params[token] = self.token`: the single POST it issues carries exactly the
callers (mutated-in-place) params mapping, whose token entry is the
clients construction-time token no matter what token value the caller had
put in the options; the token field of the instance is never changed. -/
theorem c9_token_overwrite (st : ClientState) (now : Int) (method : String)
    (params : List (String × String)) (dcv : Bool) (resp : HttpResponse)
    (hnb : rateCheckBlocked st now = false) :
    (makeRequest st now method params dcv resp).posted.map PostedCall.form =
      [(makeRequest st now method params dcv resp).paramsAfter] ∧
    dictGet (makeRequest st now method params dcv resp).paramsAfter "token" =
      some st.token ∧
    (makeRequest st now method params dcv resp).state.token = st.token := by
  rw [makeRequest_eq_unblocked st now method params dcv resp hnb]
  rw [makeRequestUnblocked_posted, makeRequestUnblocked_paramsAfter,
    makeRequestUnblocked_token]
  simp [dictGet]

/-- Witness for C9 with a caller-supplied token in the options. -/
theorem c9_token_overwrite_witness :
    rateCheckBlocked stEmptyEx 0 = false ∧
    ((makeRequest stEmptyEx 0 "auth.test" [("token", "attacker")] false
        (.jsonResp ⟨true, "", []⟩)).posted.map PostedCall.form =
      [(makeRequest stEmptyEx 0 "auth.test" [("token", "attacker")] false
          (.jsonResp ⟨true, "", []⟩)).paramsAfter] ∧
    dictGet (makeRequest stEmptyEx 0 "auth.test" [("token", "attacker")] false
        (.jsonResp ⟨true, "", []⟩)).paramsAfter "token" = some stEmptyEx.token ∧
    (makeRequest stEmptyEx 0 "auth.test" [("token", "attacker")] false
        (.jsonResp ⟨true, "", []⟩)).state.token = stEmptyEx.token) :=
  ⟨by decide, c9_token_overwrite stEmptyEx 0 "auth.test" [("token", "attacker")] false
    (.jsonResp ⟨true, "", []⟩) (by decide)⟩

/-- Claim C5. A 429 response whose `retry-after` header parses to `ra` sets
`blocked_until` to `now + ra` before the rate-limit error is raised; every
request issued at a time strictly before that deadline fails with the
blocked error and posts nothing; any request issued at or after the
deadline reaches the network (posts exactly one call), with no explicit
clearing of the deadline. -/
theorem c5_rate_limit_deadline (st : ClientState) (now : Int) (method : String)
    (params : List (String × String)) (dcv : Bool) (hdr : Option String) (ra : Int)
    (hnb : rateCheckBlocked st now = false)
    (hra : retryAfterOf hdr = some ra) :
    (makeRequest st now method params dcv (.tooMany hdr)).outcome = .rateLimitErr ra ∧
    (makeRequest st now method params dcv (.tooMany hdr)).state.blocked_until =
      some (now + ra) ∧
    (∀ (now' : Int) (method' : String) (params' : List (String × String))
        (dcv' : Bool) (resp' : HttpResponse), now' < now + ra →
      (makeRequest (makeRequest st now method params dcv (.tooMany hdr)).state
          now' method' params' dcv' resp').outcome = .blockedErr (now + ra) ∧
      (makeRequest (makeRequest st now method params dcv (.tooMany hdr)).state
          now' method' params' dcv' resp').posted = []) ∧
    (∀ (now' : Int) (method' : String) (params' : List (String × String))
        (dcv' : Bool) (resp' : HttpResponse), now + ra ≤ now' →
      (makeRequest (makeRequest st now method params dcv (.tooMany hdr)).state
          now' method' params' dcv' resp').posted =
        [⟨BASE_URL ++ "/" ++ method',
          ("token", st.token) :: params', dcv'⟩]) := by
  have hmk : makeRequest st now method params dcv (.tooMany hdr) =
      ⟨.rateLimitErr ra, { st with blocked_until := some (now + ra) },
        ("token", st.token) :: params,
        [⟨BASE_URL ++ "/" ++ method, ("token", st.token) :: params, dcv⟩]⟩ := by
    rw [makeRequest_eq_unblocked st now method params dcv (.tooMany hdr) hnb]
    unfold makeRequestUnblocked
    simp [hra]
  rw [hmk]
  refine ⟨rfl, rfl, ?_, ?_⟩
  · intro now' method' params' dcv' resp' hlt
    rw [makeRequest_blocked _ _ _ _ _ _ (now + ra) rfl hlt]
    exact ⟨rfl, rfl⟩
  · intro now' method' params' dcv' resp' hge
    have hnb' : rateCheckBlocked { st with blocked_until := some (now + ra) } now' =
        false := by
      unfold rateCheckBlocked
      simp only [decide_eq_false_iff_not]
      omega
    rw [makeRequest_eq_unblocked _ _ _ _ _ _ hnb']
    exact makeRequestUnblocked_posted _ _ _ _ _ _

/-- Witness for C5: a fresh client, a 429 with `retry-after: 5` at time 0. -/
theorem c5_rate_limit_deadline_witness :
    rateCheckBlocked stEmptyEx 0 = false ∧
    retryAfterOf (some "5") = some 5 ∧
    ((makeRequest stEmptyEx 0 "chat.postMessage" [] false
        (.tooMany (some "5"))).outcome = .rateLimitErr 5 ∧
    (makeRequest stEmptyEx 0 "chat.postMessage" [] false
        (.tooMany (some "5"))).state.blocked_until = some (0 + 5) ∧
    (∀ (now' : Int) (method' : String) (params' : List (String × String))
        (dcv' : Bool) (resp' : HttpResponse), now' < 0 + 5 →
      (makeRequest (makeRequest stEmptyEx 0 "chat.postMessage" [] false
          (.tooMany (some "5"))).state now' method' params' dcv' resp').outcome =
        .blockedErr (0 + 5) ∧
      (makeRequest (makeRequest stEmptyEx 0 "chat.postMessage" [] false
          (.tooMany (some "5"))).state now' method' params' dcv' resp').posted = []) ∧
    (∀ (now' : Int) (method' : String) (params' : List (String × String))
        (dcv' : Bool) (resp' : HttpResponse), 0 + 5 ≤ now' →
      (makeRequest (makeRequest stEmptyEx 0 "chat.postMessage" [] false
          (.tooMany (some "5"))).state now' method' params' dcv' resp').posted =
        [⟨BASE_URL ++ "/" ++ method',
          ("token", stEmptyEx.token) :: params', dcv'⟩])) :=
  ⟨by decide, by decide, c5_rate_limit_deadline stEmptyEx 0 "chat.postMessage" [] false
    (some "5") 5 (by decide) (by decide)⟩

/-- Claim C2, as stated, is false in one respect: `channel_history` calls
`setup_cache()` BEFORE validating `count`, so with empty caches a call
with `count = 0` issues the two listing requests first and only then
raises the out-of-range error. -/
theorem c2_counterexample :
    (channel_history_pre stEmptyEx [memberAlice] [chanGeneral] 0).countOk = false ∧
    (channel_history_pre stEmptyEx [memberAlice] [chanGeneral] 0).listingCalls = 2 := by
  decide

/-- Claim C2 (amended). With both caches already populated,
`channel_history` raises the out-of-range error for `count` outside
`[1, 1000]` with zero listing requests, and accepts any count inside the
range (in particular 1 and 1000); with empty caches the same validation
still happens, but only after `setup_cache()` has issued its listing
requests. -/
theorem c2_count_validation (st : ClientState) (members : List Member)
    (chanListing : List ChannelRec) (count : Int)
    (hu : st.ul_by_id ≠ []) (hc : st.channels ≠ []) :
    ((count < 1 ∨ count > 1000) →
      (channel_history_pre st members chanListing count).countOk = false) ∧
    (channel_history_pre st members chanListing count).listingCalls = 0 ∧
    ((1 ≤ count ∧ count ≤ 1000) →
      (channel_history_pre st members chanListing count).countOk = true) := by
  have hsetup : setup_cache st false members chanListing = (st, 0) := by
    unfold setup_cache
    simp [List.isEmpty_iff, hu, hc]
  unfold channel_history_pre
  rw [hsetup]
  refine ⟨?_, ?_, ?_⟩
  · intro h
    rw [if_pos h]
  · split <;> rfl
  · intro h
    rw [if_neg (by omega)]

/-- Witness for C2 (amended): populated caches, `count = 0`. -/
theorem c2_count_validation_witness :
    stPopEx.ul_by_id ≠ [] ∧ stPopEx.channels ≠ [] ∧
    ((((0 : Int) < 1 ∨ (0 : Int) > 1000) →
      (channel_history_pre stPopEx [] [] 0).countOk = false) ∧
    (channel_history_pre stPopEx [] [] 0).listingCalls = 0 ∧
    ((1 ≤ (0 : Int) ∧ (0 : Int) ≤ 1000) →
      (channel_history_pre stPopEx [] [] 0).countOk = true)) :=
  ⟨by decide, by decide, c2_count_validation stPopEx [] [] 0 (by decide) (by decide)⟩

/-- Claim C3, as stated, is false: against an already-populated map lacking
the name, `channel_name_to_id` performs NO rebuild (the rebuild only
happens when the map is falsy or `force_lookup` is set) and returns the
non-error value `None` instead of raising `NotFoundError`. -/
theorem c3_counterexample :
    (channel_name_to_id stPopEx [] "#missing" false).result = none ∧
    (channel_name_to_id stPopEx [] "#missing" false).listingCalls = 0 := by
  decide

/-- Claim C3 (amended). For a name absent from both the listing and the
current map, resolution never loops: it performs at most one listing call
— exactly one when the map is empty (it is then rebuilt from the listing),
zero when the map is already populated (no rebuild, no retry) — and in
either case returns `None` rather than raising an error. -/
theorem c3_missing_name_no_retry (st : ClientState) (listing : List ChannelRec)
    (name : String)
    (hmiss_listing : ∀ c ∈ listing, stripChannelName name ≠ c.name)
    (hmiss_cache : dictGet st.channel_name_id_map (stripChannelName name) = none) :
    (channel_name_to_id st listing name false).result = none ∧
    (channel_name_to_id st listing name false).listingCalls ≤ 1 ∧
    (st.channel_name_id_map = [] →
      (channel_name_to_id st listing name false).listingCalls = 1) ∧
    (st.channel_name_id_map ≠ [] →
      (channel_name_to_id st listing name false).listingCalls = 0) := by
  unfold channel_name_to_id
  by_cases hmap : st.channel_name_id_map = []
  · have hempty : st.channel_name_id_map.isEmpty = true := by simp [hmap]
    have hbuild : dictGet (buildNameIdMap listing) (stripChannelName name) = none :=
      (dictGet_foldl_eq_none (fun c : ChannelRec => (c.name, c.id)) listing []
        (stripChannelName name)).mpr ⟨rfl, hmiss_listing⟩
    simp [hempty, hbuild, hmap]
  · have hempty : st.channel_name_id_map.isEmpty = false := by
      simpa [List.isEmpty_iff] using hmap
    simp [hempty, hmiss_cache, hmap]

/-- Witness for C3 (amended): a populated map lacking `missing`. -/
theorem c3_missing_name_no_retry_witness :
    (∀ c ∈ ([] : List ChannelRec), stripChannelName "#missing" ≠ c.name) ∧
    dictGet stPopEx.channel_name_id_map (stripChannelName "#missing") = none ∧
    ((channel_name_to_id stPopEx [] "#missing" false).result = none ∧
    (channel_name_to_id stPopEx [] "#missing" false).listingCalls ≤ 1 ∧
    (stPopEx.channel_name_id_map = [] →
      (channel_name_to_id stPopEx [] "#missing" false).listingCalls = 1) ∧
    (stPopEx.channel_name_id_map ≠ [] →
      (channel_name_to_id stPopEx [] "#missing" false).listingCalls = 0)) :=
  ⟨by decide, by decide,
    c3_missing_name_no_retry stPopEx [] "#missing" (by decide) (by decide)⟩

/-- Claim C4, as stated, is false for `channel_name_to_id`: a raw-identifier
input (leading `C`, no `#` sigil) is NOT returned unchanged — the function
looks it up in the name→id map like any other name, returning `None` on a
miss, and with an empty map it even issues a listing call. -/
theorem c4_counterexample :
    (channel_name_to_id stPopEx [] "C1234567890" false).result = none ∧
    (channel_name_to_id stEmptyEx [chanGeneral] "C1234567890" false).listingCalls
      = 1 := by
  decide

/-- Claim C4 (amended). Only `chat_update_message` short-circuits raw
identifiers: an input that does not start with the `#` sigil is placed in
the request parameters unchanged, without consulting the cache and with
zero listing calls; `channel_name_to_id` itself has no such shortcut. -/
theorem c4_chat_update_raw_id_passthrough (st : ClientState)
    (listing : List ChannelRec) (channel : String)
    (h : startsWithChar channel '#' = false) :
    chat_update_message_channel st listing channel = ⟨some channel, st, 0⟩ := by
  unfold chat_update_message_channel
  simp [h]

/-- Witness for C4 (amended) at a raw channel identifier. -/
theorem c4_chat_update_raw_id_passthrough_witness :
    startsWithChar "C1234567890" '#' = false ∧
    chat_update_message_channel stPopEx [] "C1234567890" =
      ⟨some "C1234567890", stPopEx, 0⟩ :=
  ⟨by decide, c4_chat_update_raw_id_passthrough stPopEx [] "C1234567890" (by decide)⟩

/-- Claim C6, as stated, is false: rebuilding the channel dict does not
clear it first, so after a rebuild from a listing containing only `beta`,
the record of `alpha` from the previous listing call is still present —
the populated cache is a merge of two different listing calls. -/
theorem c6_counterexample :
    dictGet (update_channel_lists_dict
        (update_channel_lists_dict stEmptyEx [chanAlpha]) [chanBeta]).channels
      "alpha" = some chanAlpha ∧
    [chanBeta].map ChannelRec.name = ["beta"] := by
  decide

/-- Claim C6 (amended). Each rebuild merges the records of the latest
listing into the existing mapping without clearing: a key is absent after
the rebuild iff it was absent before AND the latest listing lacks it (for
`ul_by_id`, the synthetic USLACKBOT key is additionally always present).
Entries from earlier listing calls therefore persist. -/
theorem c6_rebuild_merges_without_clearing (st : ClientState)
    (listing : List ChannelRec) (members : List Member) (k : String) :
    (dictGet (update_channel_lists_dict st listing).channels k = none ↔
      dictGet st.channels k = none ∧ ∀ c ∈ listing, k ≠ c.name) ∧
    (dictGet (update_user_lists_dicts st members).ul_by_name k = none ↔
      dictGet st.ul_by_name k = none ∧ ∀ m ∈ members, k ≠ m.name) ∧
    (dictGet (update_user_lists_dicts st members).ul_by_id k = none ↔
      k ≠ "USLACKBOT" ∧ dictGet st.ul_by_id k = none ∧ ∀ m ∈ members, k ≠ m.id) := by
  refine ⟨?_, ?_, ?_⟩
  · exact dictGet_foldl_eq_none (fun c : ChannelRec => (c.name, c)) listing
      st.channels k
  · exact dictGet_foldl_eq_none (fun u : Member => (u.name, UserRec.fromListing u))
      members st.ul_by_name k
  · have hfold := dictGet_foldl_eq_none
      (fun u : Member => (u.id, UserRec.fromListing u)) members st.ul_by_id k
    show (if k = "USLACKBOT" then some UserRec.syntheticSlackbot
        else dictGet (members.foldl
          (fun m u => (u.id, UserRec.fromListing u) :: m) st.ul_by_id) k) = none ↔ _
    by_cases hk : k = "USLACKBOT"
    · rw [if_pos hk]
      simp [hk]
    · rw [if_neg hk]
      exact ⟨fun h => ⟨hk, hfold.mp h⟩, fun h => hfold.mpr ⟨h.2.1, h.2.2⟩⟩

/-- Witness for C6 (amended): after rebuilding from a listing holding only
`beta`, the key `alpha` is absent iff it was absent before, i.e. old
entries persist. -/
theorem c6_rebuild_merges_without_clearing_witness :
    (dictGet (update_channel_lists_dict stEmptyEx [chanBeta]).channels "alpha" =
        none ↔
      dictGet stEmptyEx.channels "alpha" = none ∧
        ∀ c ∈ [chanBeta], "alpha" ≠ c.name) ∧
    (dictGet (update_user_lists_dicts stEmptyEx [memberAlice]).ul_by_name "alpha" =
        none ↔
      dictGet stEmptyEx.ul_by_name "alpha" = none ∧
        ∀ m ∈ [memberAlice], "alpha" ≠ m.name) ∧
    (dictGet (update_user_lists_dicts stEmptyEx [memberAlice]).ul_by_id "alpha" =
        none ↔
      "alpha" ≠ "USLACKBOT" ∧ dictGet stEmptyEx.ul_by_id "alpha" = none ∧
        ∀ m ∈ [memberAlice], "alpha" ≠ m.id) :=
  c6_rebuild_merges_without_clearing stEmptyEx [chanBeta] [memberAlice] "alpha"

/-- Claim C10. After `update_user_lists_dicts`, `ul_by_id` always carries
the synthetic Slackbot record under the fixed key `USLACKBOT`, but no
matching entry is added to `ul_by_name`: provided no listed member is named
`Slackbot` (the platform never lists the system bot) and none was cached
before, looking the bot up by name — as `channels_invite` and `stars_list`
do via `self.ul_by_name[user]` — raises `KeyError` even though the cache
is populated. -/
theorem c10_slackbot_only_keyed_by_id (st : ClientState) (members : List Member)
    (hname : ∀ m ∈ members, m.name ≠ "Slackbot")
    (hold : dictGet st.ul_by_name "Slackbot" = none) :
    dictGet (update_user_lists_dicts st members).ul_by_id "USLACKBOT" =
      some UserRec.syntheticSlackbot ∧
    dictGet (update_user_lists_dicts st members).ul_by_name "Slackbot" = none ∧
    resolveUserByName (update_user_lists_dicts st members) "Slackbot" = none := by
  have h2 : dictGet (update_user_lists_dicts st members).ul_by_name "Slackbot" =
      none :=
    (dictGet_foldl_eq_none (fun u : Member => (u.name, UserRec.fromListing u))
      members st.ul_by_name "Slackbot").mpr
      ⟨hold, fun m hm => (hname m hm).symm⟩
  refine ⟨?_, h2, h2⟩
  show (if "USLACKBOT" = "USLACKBOT" then some UserRec.syntheticSlackbot
      else dictGet (members.foldl
        (fun m u => (u.id, UserRec.fromListing u) :: m) st.ul_by_id) "USLACKBOT") =
    some UserRec.syntheticSlackbot
  rw [if_pos rfl]

/-- Witness for C10: a fresh client whose user listing holds only alice. -/
theorem c10_slackbot_only_keyed_by_id_witness :
    (∀ m ∈ [memberAlice], m.name ≠ "Slackbot") ∧
    dictGet stEmptyEx.ul_by_name "Slackbot" = none ∧
    (dictGet (update_user_lists_dicts stEmptyEx [memberAlice]).ul_by_id "USLACKBOT" =
      some UserRec.syntheticSlackbot ∧
    dictGet (update_user_lists_dicts stEmptyEx [memberAlice]).ul_by_name "Slackbot" =
      none ∧
    resolveUserByName (update_user_lists_dicts stEmptyEx [memberAlice]) "Slackbot" =
      none) :=
  ⟨by decide, by decide,
    c10_slackbot_only_keyed_by_id stEmptyEx [memberAlice] (by decide) (by decide)⟩

end Pyslack
